import Mathlib

/-!
Verification of the `berlin_brains_2023` interactive apps.

The repository contains three Streamlit tutorial scripts:
  * `interactive_apps/streamlit_minimal.py` — a toy app with `string_creator`;
  * `interactive_apps/solutions/streamlit_minimal_solved.py` — the solved
    exercise, with an extended `string_creator`;
  * `interactive_apps/solutions/streamlit_fooof_solved.py` — an app that loads
    a recording, computes its power spectrum (both stages cached with
    `st.cache_data`), fits the FOOOF model with the current widget parameters
    on every rerun, and renders offset / exponent / first-peak metrics.

The string functions are embedded directly from the Python source over
Lean strings (Python `s * n` for a possibly negative `n` becomes `pyStrMul`).
The FOOOF pipeline is embedded as an explicit cache-state-passing pipeline;
the parts owned by external libraries (mne's file loading and PSD
computation, fooof's curve fit) are modelled from the specification's
contract for `load` / `derive` / `fit`, while the glue that is in the
repository (which stages are cached and on which arguments, the uncached
fit stage, the metric-rendering block) follows the source.
-/

namespace BerlinBrains

/-! ## Minimal app: `string_creator` (from the source) -/

/-- Python string repetition `s * n`: the empty string when `n ≤ 0`,
otherwise `s` concatenated `n` times. -/
def pyStrMul (s : String) (n : Int) : String :=
  if n ≤ 0 then "" else String.join (List.replicate n.toNat s)

namespace StreamlitMinimal

/-- `string_creator` from `interactive_apps/streamlit_minimal.py`:
`return symbol * length`. -/
def string_creator (symbol : String) (length : Int) : String :=
  pyStrMul symbol length

end StreamlitMinimal

namespace StreamlitMinimalSolved

/-- `string_creator` from
`interactive_apps/solutions/streamlit_minimal_solved.py`:

```python
result = symbol * length
if make_square:
    result = '\n'.join([symbol * length] * length)
if prefix:
    return f'{prefix}:\n{result}'
else:
    return result
```

The Python parameter `prefix` is called `pfx` here (`prefix` is reserved in
Lean); Python's truthiness test `if prefix:` on a string is `pfx ≠ ""`. -/
def string_creator (symbol : String) (length : Int) (pfx : String)
    (make_square : Bool) : String :=
  let result := pyStrMul symbol length
  let result :=
    if make_square then
      String.intercalate "\n" (List.replicate length.toNat (pyStrMul symbol length))
    else result
  if pfx ≠ "" then pfx ++ ":\n" ++ result else result

end StreamlitMinimalSolved

/-! ## FOOOF app: data model

From `interactive_apps/solutions/streamlit_fooof_solved.py`.  The numeric
content of the external libraries is modelled over `ℚ` (the script's floats);
the shapes and the control flow follow the script. -/

namespace Fooof

/-- Error taxonomy of the pipeline, from the specification's §7. -/
inductive PipeError
  | NotFoundError
  | InvalidParameterError
  | ComputeError
  deriving DecidableEq, Repr

/-- The Raw Dataset: the loaded recording, opaque content modelled as its
sample data. -/
structure RawDataset where
  data : List ℚ
  deriving DecidableEq, Repr

/-- The Derived Dataset: the computed power spectrum (frequency axis and
power values), as returned by `raw.compute_psd(...)` in the script. -/
structure DerivedDataset where
  freqs : List ℚ
  psd : List ℚ
  deriving DecidableEq, Repr

/-- `aperiodic_mode`, the `st.radio` widget with options `fixed` / `knee`. -/
inductive AperiodicMode
  | fixed
  | knee
  deriving DecidableEq, Repr

/-- The Parameter Set: the widget values read on every rerun of the script
(channel selectbox, frequency-range slider, peak-width slider, max-peaks
slider, aperiodic-mode radio, two annotation checkboxes). -/
structure ParameterSet where
  channel : String
  f_range : ℚ × ℚ
  peak_width : ℚ × ℚ
  max_n_peaks : Nat
  aperiodic_mode : AperiodicMode
  annotate_peaks : Bool
  annotate_aperiodic : Bool
  deriving DecidableEq, Repr

/-- The Fit Result: the fitted FOOOF model's parameters, as the script reads
them back (`fm.aperiodic_params_`, `fm.peak_params_`).  Each peak is a
`(center frequency, power, bandwidth)` triple. -/
structure FitResult where
  aperiodic_params : List ℚ
  peak_params : List (ℚ × ℚ × ℚ)
  deriving DecidableEq, Repr

/-- The Display Payload: the three scalar metrics shown by the `st.metric`
block — offset, exponent, and the first peak's frequency when a peak exists
(`fm.peak_params_.shape[0]` truthy), absent otherwise. -/
structure DisplayPayload where
  offset : ℚ
  exponent : ℚ
  peak_freq : Option ℚ
  deriving DecidableEq, Repr

/-- Modelled from the spec: Python's `round(x, 2)` on the metric floats,
modelled over `ℚ` as rounding to a multiple of `1/100`. -/
def round2 (q : ℚ) : ℚ :=
  (⌊q * 100 + 1 / 2⌋ : ℚ) / 100

/-- The process-wide `st.cache_data` state, made explicit.  `load_data(path)`
takes the path as its argument, so its cache is keyed by path; `get_spectrum()`
takes no argument (it closes over the global `raw`), so its cache has a single
unit-keyed slot.  The `loadRuns` / `specRuns` fields log the actual executions
of the cached function bodies, so that "executes at most once" claims can be
stated. -/
structure CacheState where
  loadCache : List (String × RawDataset)
  loadRuns : List String
  specCache : Option DerivedDataset
  specRuns : Nat
  deriving DecidableEq, Repr

/-- The cache state at the start of a session: both caches empty, no
executions logged. -/
def initState : CacheState :=
  { loadCache := [], loadRuns := [], specCache := none, specRuns := 0 }

/-! ### Pipeline operations -/

/-- Lookup in the path-keyed cache (the Streamlit cache dictionary). -/
def cacheLookup : List (String × RawDataset) → String → Option RawDataset
  | [], _ => none
  | (k, v) :: rest, path => if path = k then some v else cacheLookup rest path

/-- Modelled from the spec: `mne.io.read_raw_fif` (the body of `load_data`,
owned by the external mne library) — "`load(path) -> RawDataset`: fails with
`NotFoundError` if the path does not resolve to an expected file".  The
filesystem is passed explicitly as a partial map from paths to recordings. -/
def read_raw_fif (fs : String → Option RawDataset) (path : String) :
    Except PipeError RawDataset :=
  match fs path with
  | some r => Except.ok r
  | none => Except.error PipeError.NotFoundError

/-- `load_data` from the script: the loader wrapped in `@st.cache_data`.
The Streamlit cache is keyed by the function's arguments, here the path:
a hit returns the stored entry untouched; a miss runs `read_raw_fif`,
stores the result and logs the execution. -/
def load_data (fs : String → Option RawDataset) (s : CacheState)
    (path : String) : Except PipeError (RawDataset × CacheState) :=
  match cacheLookup s.loadCache path with
  | some r => Except.ok (r, s)
  | none =>
    match read_raw_fif fs path with
    | Except.ok r =>
        Except.ok (r, { s with
          loadCache := (path, r) :: s.loadCache,
          loadRuns := path :: s.loadRuns })
    | Except.error e => Except.error e

/-- Modelled from the spec: `raw.compute_psd(fmin=0, fmax=250)` (the body of
`get_spectrum`, owned by the external mne library) — "`derive(raw) ->
DerivedDataset`: pure function; deterministic; fails with `ComputeError` on
malformed raw input".  Malformed raw input is modelled as an empty recording;
otherwise the spectrum is a deterministic function of the samples. -/
def compute_psd (raw : RawDataset) : Except PipeError DerivedDataset :=
  if raw.data = [] then Except.error PipeError.ComputeError
  else
    Except.ok { freqs := (List.range raw.data.length).map (fun i => (i : ℚ)),
                psd := raw.data }

/-- `get_spectrum` from the script: the spectrum computation wrapped in
`@st.cache_data`.  Crucially, in the source the function takes **no
arguments** and reads the global `raw`, so its cache key is the empty
argument tuple: a populated cache slot is returned whatever `raw` now is. -/
def get_spectrum (s : CacheState) (raw : RawDataset) :
    Except PipeError (DerivedDataset × CacheState) :=
  match s.specCache with
  | some d => Except.ok (d, s)
  | none =>
    match compute_psd raw with
    | Except.ok d =>
        Except.ok (d, { s with specCache := some d, specRuns := s.specRuns + 1 })
    | Except.error e => Except.error e

/-- The spectrum points whose frequency lies in the requested range — the
model of fooof trimming the spectrum to `freq_range`. -/
def trim (d : DerivedDataset) (lo hi : ℚ) : List (ℚ × ℚ) :=
  (d.freqs.zip d.psd).filter fun fp => decide (lo ≤ fp.1) && decide (fp.1 ≤ hi)

/-- Modelled from the spec: `fm.fit(freqs, psd, freq_range=f_range)` (owned by
the external fooof library) — "`fit(derived, params) -> FitResult`: pure
function; bounds-checks parameter ranges are non-empty and ordered; fails with
`InvalidParameterError` if a range's lower bound exceeds its upper bound, or
with `ComputeError` if the underlying fit does not converge".  Non-convergence
is modelled as the trimmed spectrum being empty.  A successful fit yields
two aperiodic parameters `[offset, exponent]` in `fixed` mode and three
`[offset, knee, exponent]` in `knee` mode (the script reads offset at index
`0` and exponent at index `-1`), plus at most `max_n_peaks` peaks (points
lying strictly above the aperiodic level).  `fitModel` is the
parameter-estimation part, `fit` below adds the bounds checks. -/
def fitModel (pts : List (ℚ × ℚ)) (p : ParameterSet) : FitResult :=
  let n : ℚ := pts.length
  let offset := (pts.map Prod.snd).sum / n
  let exponent := (pts.map (fun fp => fp.1 * fp.2)).sum / n
  { aperiodic_params :=
      match p.aperiodic_mode with
      | AperiodicMode.fixed => [offset, exponent]
      | AperiodicMode.knee => [offset, 1, exponent],
    peak_params :=
      ((pts.filter fun fp => decide (offset < fp.2)).map
        (fun fp => (fp.1, fp.2, p.peak_width.1))).take p.max_n_peaks }

def fit (d : DerivedDataset) (p : ParameterSet) : Except PipeError FitResult :=
  if p.f_range.2 < p.f_range.1 ∨ p.peak_width.2 < p.peak_width.1 then
    Except.error PipeError.InvalidParameterError
  else if trim d p.f_range.1 p.f_range.2 = [] then
    Except.error PipeError.ComputeError
  else Except.ok (fitModel (trim d p.f_range.1 p.f_range.2) p)

/-- The metric block of the script (STEP 5):

```python
st.metric('Offset', round(fm.aperiodic_params_[0], 2))
st.metric('Exponent', round(fm.aperiodic_params_[-1], 2))
if fm.peak_params_.shape[0]:
    st.metric('Peak frequency (Hz)...', round(fm.peak_params_[0, 0], 2))
```

`none` corresponds to the index error `aperiodic_params_[0]` would raise on an
empty parameter vector; the first-peak metric is absent (not an error) when no
peak was found. -/
def render (fr : FitResult) : Option DisplayPayload :=
  match fr.aperiodic_params with
  | [] => none
  | a :: rest =>
    some { offset := round2 a,
           exponent := round2 ((a :: rest).getLast (List.cons_ne_nil a rest)),
           peak_freq :=
             match fr.peak_params with
             | [] => none
             | pk :: _ => some (round2 pk.1) }

/-- What one rerun of the script puts on screen. -/
inductive CycleResult
  | fatalWarning
  | keepPrior
  | noFit
  | payload (d : DisplayPayload)
  deriving DecidableEq, Repr

/-- The uncached fit-and-render stage (STEP 4 + STEP 5 of the script): fit the
FOOOF model with the current Parameter Set and render the metrics.  Per the
spec's error design, `InvalidParameterError` rejects the cycle's recompute
(prior display untouched) and `ComputeError` renders a "no result" state. -/
def fitAndRender (spec : DerivedDataset) (p : ParameterSet) : CycleResult :=
  match fit spec p with
  | Except.error PipeError.InvalidParameterError => CycleResult.keepPrior
  | Except.error _ => CycleResult.noFit
  | Except.ok fr =>
    match render fr with
    | none => CycleResult.noFit
    | some pay => CycleResult.payload pay

/-- One full rerun of the script (a Cycle): cached load, cached spectrum,
then the fit-and-render stage executed fresh with the Parameter Set supplied
to this cycle.  A `NotFoundError` is fatal to the session and surfaced as a
user-visible warning (`st.warning`); no retry is performed and the cache is
left untouched. -/
def runCycle (fs : String → Option RawDataset) (path : String)
    (p : ParameterSet) (s : CacheState) : CycleResult × CacheState :=
  match load_data fs s path with
  | Except.error _ => (CycleResult.fatalWarning, s)
  | Except.ok (raw, s1) =>
    match get_spectrum s1 raw with
    | Except.error _ => (CycleResult.noFit, s1)
    | Except.ok (spec, s2) => (fitAndRender spec p, s2)

/-- How one cycle's outcome updates the metrics on display: a rejected
recompute keeps the prior display, a fatal warning or a "no result" state
shows no metrics, a successful cycle shows the fresh payload. -/
def updateDisplay (prev : Option DisplayPayload) :
    CycleResult → Option DisplayPayload
  | CycleResult.fatalWarning => none
  | CycleResult.keepPrior => prev
  | CycleResult.noFit => none
  | CycleResult.payload d => some d

/-- The load cache is sound for the filesystem `fs`: every cached entry is
what `fs` holds at that path.  Every state reachable from `initState` under a
fixed `fs` satisfies this. -/
def SoundCache (fs : String → Option RawDataset) (s : CacheState) : Prop :=
  ∀ path r, cacheLookup s.loadCache path = some r → fs path = some r

/-- Each cached function body has executed at most once per distinct cache
key: the execution log has no duplicates, and every logged execution left a
cache entry behind. -/
def RunsOnce (s : CacheState) : Prop :=
  s.loadRuns.Nodup ∧
    ∀ path, path ∈ s.loadRuns → (cacheLookup s.loadCache path).isSome

/-! ### Concrete demonstration inputs

Small concrete datasets, parameter sets and cache states used to evaluate
the pipeline at explicit inputs. -/

/-- A demo recording with two samples. -/
def demoRaw : RawDataset := { data := [1, 2] }

/-- A demo filesystem holding `demoRaw` at path `"data"`. -/
def demoFs : String → Option RawDataset :=
  fun path => if path = "data" then some demoRaw else none

/-- The cache state after loading `"data"` from `demoFs` once. -/
def demoState1 : CacheState :=
  { loadCache := [("data", demoRaw)], loadRuns := ["data"],
    specCache := none, specRuns := 0 }

/-- The spectrum of `demoRaw` (what `compute_psd demoRaw` returns). -/
def demoSpec : DerivedDataset := { freqs := [0, 1], psd := [1, 2] }

/-- A flat demo spectrum: no point lies strictly above the mean, so a fit
finds zero peaks. -/
def demoFlat : DerivedDataset := { freqs := [0, 1], psd := [1, 1] }

/-- A spectrum whose only frequency (50 Hz) lies outside the default
frequency range, so a fit over `[1, 45]` has no data — the non-convergent
case. -/
def demoHigh : DerivedDataset := { freqs := [50], psd := [1] }

/-- The widget defaults of the script: channel `"EEG039"`, frequency range
`[0, 1]` (kept tiny for the demos), peak width `[0.5, 12.0]`, at most 3
peaks, `fixed` mode, annotations off. -/
def demoParams : ParameterSet :=
  { channel := "EEG039", f_range := (0, 1), peak_width := (1 / 2, 12),
    max_n_peaks := 3, aperiodic_mode := AperiodicMode.fixed,
    annotate_peaks := false, annotate_aperiodic := false }

/-- `demoParams` with the frequency range `[1, 45]` of the script. -/
def demoParamsWide : ParameterSet :=
  { demoParams with f_range := (1, 45) }

/-- `demoParams` with the inverted frequency range `[45, 1]`. -/
def demoParamsInv : ParameterSet :=
  { demoParams with f_range := (45, 1) }

/-- The cache state after a load of `"data"` and a spectrum computation that
happened while `demoHigh` was the cached spectrum. -/
def demoStateHigh : CacheState :=
  { loadCache := [("data", demoRaw)], loadRuns := ["data"],
    specCache := some demoHigh, specRuns := 1 }

/-- A one-sample recording, used to exhibit the derived-stage cache key. -/
def rawA : RawDataset := { data := [1] }

/-- A different one-sample recording. -/
def rawB : RawDataset := { data := [2] }

/-- The spectrum of `rawA`. -/
def specA : DerivedDataset := { freqs := [0], psd := [1] }

/-- The spectrum of `rawB`. -/
def specB : DerivedDataset := { freqs := [0], psd := [2] }

/-- The cache state after computing the spectrum of `rawA` once. -/
def stateA : CacheState :=
  { loadCache := [], loadRuns := [], specCache := some specA, specRuns := 1 }

/-- The cache state after loading `"data"` and computing its spectrum. -/
def demoState2 : CacheState :=
  { loadCache := [("data", demoRaw)], loadRuns := ["data"],
    specCache := some demoSpec, specRuns := 1 }

/-- A demo display payload, standing for metrics left by an earlier cycle. -/
def demoPayload : DisplayPayload :=
  { offset := 1, exponent := 1, peak_freq := none }

/-- The Fit Result of fitting `demoFlat` with `demoParams`: mean power 1,
exponent 1/2, zero peaks. -/
def frFlat : FitResult :=
  { aperiodic_params := [1, 1 / 2], peak_params := [] }

/-- A filesystem holding no recordings at all. -/
def emptyFs : String → Option RawDataset := fun _ => none

end Fooof

/-! ## Helper lemmas -/

namespace Fooof

/-- A successful load leaves the loaded value in the cache under its path. -/
theorem load_data_ok_lookup {fs : String → Option RawDataset} {s : CacheState}
    {path : String} {r : RawDataset} {s' : CacheState}
    (h : load_data fs s path = Except.ok (r, s')) :
    cacheLookup s'.loadCache path = some r := by
  unfold load_data at h
  cases hl : cacheLookup s.loadCache path with
  | some r0 =>
    rw [hl] at h
    simp only [Except.ok.injEq, Prod.mk.injEq] at h
    obtain ⟨rfl, rfl⟩ := h
    exact hl
  | none =>
    rw [hl] at h
    cases hr : read_raw_fif fs path with
    | error e => rw [hr] at h; cases h
    | ok r1 =>
      rw [hr] at h
      simp only [Except.ok.injEq, Prod.mk.injEq] at h
      obtain ⟨rfl, rfl⟩ := h
      simp [cacheLookup]

/-- A cache hit returns the stored entry and leaves the state untouched. -/
theorem load_data_hit {fs : String → Option RawDataset} {s : CacheState}
    {path : String} {r : RawDataset}
    (h : cacheLookup s.loadCache path = some r) :
    load_data fs s path = Except.ok (r, s) := by
  unfold load_data
  rw [h]

/-- A successful load leaves the spectrum cache fields untouched. -/
theorem load_data_preserves_spec {fs : String → Option RawDataset}
    {s : CacheState} {path : String} {r : RawDataset} {s' : CacheState}
    (h : load_data fs s path = Except.ok (r, s')) :
    s'.specCache = s.specCache ∧ s'.specRuns = s.specRuns := by
  unfold load_data at h
  cases hl : cacheLookup s.loadCache path with
  | some r0 =>
    rw [hl] at h
    simp only [Except.ok.injEq, Prod.mk.injEq] at h
    obtain ⟨rfl, rfl⟩ := h
    exact ⟨rfl, rfl⟩
  | none =>
    rw [hl] at h
    cases hr : read_raw_fif fs path with
    | error e => rw [hr] at h; cases h
    | ok r1 =>
      rw [hr] at h
      simp only [Except.ok.injEq, Prod.mk.injEq] at h
      obtain ⟨rfl, rfl⟩ := h
      exact ⟨rfl, rfl⟩

/-- A successful spectrum lookup/computation fills the unit-keyed slot with
the returned spectrum and leaves the load-cache fields untouched. -/
theorem get_spectrum_ok_cache {s : CacheState} {raw : RawDataset}
    {d : DerivedDataset} {s' : CacheState}
    (h : get_spectrum s raw = Except.ok (d, s')) :
    s'.specCache = some d ∧ s'.loadCache = s.loadCache
      ∧ s'.loadRuns = s.loadRuns := by
  unfold get_spectrum at h
  cases hc : s.specCache with
  | some d0 =>
    rw [hc] at h
    simp only [Except.ok.injEq, Prod.mk.injEq] at h
    obtain ⟨rfl, rfl⟩ := h
    exact ⟨hc, rfl, rfl⟩
  | none =>
    rw [hc] at h
    cases hp : compute_psd raw with
    | error e => rw [hp] at h; cases h
    | ok d1 =>
      rw [hp] at h
      simp only [Except.ok.injEq, Prod.mk.injEq] at h
      obtain ⟨rfl, rfl⟩ := h
      exact ⟨rfl, rfl, rfl⟩

/-- A populated spectrum slot is returned as-is, whatever `raw` now is. -/
theorem get_spectrum_hit {s : CacheState} {d : DerivedDataset}
    (h : s.specCache = some d) (raw : RawDataset) :
    get_spectrum s raw = Except.ok (d, s) := by
  unfold get_spectrum
  rw [h]

/-- Under a sound cache, a load of a path that the filesystem resolves
succeeds, returns exactly the filesystem's recording, and keeps the cache
sound; spectrum cache fields are untouched. -/
theorem load_data_total {fs : String → Option RawDataset} {s : CacheState}
    {path : String} {raw : RawDataset}
    (hS : SoundCache fs s) (hfs : fs path = some raw) :
    ∃ s', load_data fs s path = Except.ok (raw, s')
      ∧ SoundCache fs s'
      ∧ s'.specCache = s.specCache ∧ s'.specRuns = s.specRuns := by
  unfold load_data
  cases hl : cacheLookup s.loadCache path with
  | some r0 =>
    have hr0 : fs path = some r0 := hS path r0 hl
    rw [hfs] at hr0
    obtain rfl : raw = r0 := by cases hr0; rfl
    exact ⟨s, rfl, hS, rfl, rfl⟩
  | none =>
    refine ⟨⟨(path, raw) :: s.loadCache, path :: s.loadRuns, s.specCache, s.specRuns⟩, ?_, ?_, rfl, rfl⟩
    · simp [read_raw_fif, hfs]
    · intro q r hq
      simp only [cacheLookup] at hq
      by_cases hqp : q = path
      · subst hqp
        rw [if_pos rfl] at hq
        cases hq
        exact hfs
      · rw [if_neg hqp] at hq
        exact hS q r hq

/-- The empty session cache is sound for every filesystem. -/
theorem soundCache_init (fs : String → Option RawDataset) :
    SoundCache fs initState := by
  intro path r h
  simp [initState, cacheLookup] at h

/-- `RunsOnce` holds of the empty session cache. -/
theorem runsOnce_init : RunsOnce initState := by
  constructor
  · simp [initState]
  · intro path h
    simp [initState] at h

/-- A one-entry cache agreeing with the filesystem is sound. -/
theorem soundCache_single (fs : String → Option RawDataset) (path : String)
    (r : RawDataset) (runs : List String) (sc : Option DerivedDataset)
    (n : Nat) (h : fs path = some r) :
    SoundCache fs ⟨[(path, r)], runs, sc, n⟩ := by
  intro q r2 hq
  simp only [cacheLookup] at hq
  by_cases hqp : q = path
  · subst hqp
    rw [if_pos rfl] at hq
    cases hq
    exact h
  · rw [if_neg hqp] at hq
    cases hq

end Fooof

/-- Python `s * n` at a natural repetition count is `n` copies of `s`. -/
theorem pyStrMul_natCast (s : String) (n : Nat) :
    pyStrMul s (n : Int) = String.join (List.replicate n s) := by
  unfold pyStrMul
  rcases Nat.eq_zero_or_pos n with h | h
  · subst h
    simp only [Nat.cast_zero, le_refl, if_pos, List.replicate_zero]
    rfl
  · rw [if_neg (not_le.mpr (by exact_mod_cast h))]
    simp

/-! ## Claim theorems -/

/-- C9: for every symbol and length, the solved `string_creator` called with
an empty prefix and `make_square = False` returns exactly the string of the
minimal example's `string_creator` at the same symbol and length. -/
theorem solved_string_creator_refines_minimal (symbol : String) (length : Int) :
    StreamlitMinimalSolved.string_creator symbol length "" false
      = StreamlitMinimal.string_creator symbol length := by
  simp [StreamlitMinimalSolved.string_creator, StreamlitMinimal.string_creator]

/-- C10: for every symbol, non-negative length, prefix and `make_square`
flag, the solved `string_creator` returns the symbol repeated `length` times
when `make_square` is false; `length` lines, each the symbol repeated
`length` times, joined by newlines, when `make_square` is true; and, whenever
the prefix is non-empty, that body preceded by the prefix, a colon and a
newline. -/
theorem solved_string_creator_spec (symbol pfx : String) (length : Nat)
    (make_square : Bool) :
    StreamlitMinimalSolved.string_creator symbol (length : Int) pfx make_square
      = (if pfx = "" then
           (if make_square then
              String.intercalate "\n"
                (List.replicate length (String.join (List.replicate length symbol)))
            else String.join (List.replicate length symbol))
         else
           pfx ++ ":\n" ++
             (if make_square then
                String.intercalate "\n"
                  (List.replicate length (String.join (List.replicate length symbol)))
              else String.join (List.replicate length symbol))) := by
  cases make_square <;> by_cases hp : pfx = "" <;>
    simp [StreamlitMinimalSolved.string_creator, pyStrMul_natCast, hp]

namespace Fooof

/-- C1: for every Parameter Set whose frequency-range lower bound exceeds its
upper bound, `fit` fails with `InvalidParameterError` on every Derived
Dataset (no Fit Result is produced), and a cycle run with such parameters
leaves the prior display payload unchanged. -/
theorem fit_inverted_range_rejected (p : ParameterSet)
    (hinv : p.f_range.2 < p.f_range.1) :
    (∀ d, fit d p = Except.error PipeError.InvalidParameterError)
    ∧ ∀ fs path raw s prev, SoundCache fs s → fs path = some raw →
        raw.data ≠ [] →
        updateDisplay prev (runCycle fs path p s).1 = prev := by
  have hfit : ∀ d, fit d p = Except.error PipeError.InvalidParameterError := by
    intro d
    unfold fit
    rw [if_pos (Or.inl hinv)]
  refine ⟨hfit, ?_⟩
  intro fs path raw s prev hS hfs hdata
  obtain ⟨s1, hl, hS1, hspec, -⟩ := load_data_total hS hfs
  cases hgs : get_spectrum s1 raw with
  | error e =>
    exfalso
    unfold get_spectrum at hgs
    cases hc : s1.specCache with
    | some d0 =>
      rw [hc] at hgs
      cases hgs
    | none =>
      rw [hc] at hgs
      unfold compute_psd at hgs
      rw [if_neg hdata] at hgs
      cases hgs
  | ok ds =>
    obtain ⟨d, s2⟩ := ds
    simp [runCycle, hl, hgs, fitAndRender, hfit d, updateDisplay]

/-- C1 witness: with the script's widgets set to the inverted frequency range
`[45, 1]`, the fit fails with `InvalidParameterError` and a cycle over the
demo filesystem leaves the previously displayed metrics unchanged. -/
theorem fit_inverted_range_rejected_witness :
    fit demoSpec demoParamsInv = Except.error PipeError.InvalidParameterError
    ∧ updateDisplay (some demoPayload)
        (runCycle demoFs "data" demoParamsInv initState).1 = some demoPayload := by
  have h := fit_inverted_range_rejected demoParamsInv (by decide)
  exact ⟨h.1 demoSpec,
         h.2 demoFs "data" demoRaw initState (some demoPayload)
           (soundCache_init demoFs) rfl (by simp [demoRaw])⟩

/-- C2 counterexample: the derived-stage cache is *not* keyed on the raw data
it was derived from.  In the source `get_spectrum()` takes no arguments and
closes over the global `raw`, so after the spectrum of `rawA` is cached, a
call while the raw dataset is `rawB` still returns `rawA`'s spectrum, which
differs from the spectrum `compute_psd` derives from `rawB`. -/
theorem get_spectrum_not_keyed_by_raw :
    get_spectrum initState rawA = Except.ok (specA, stateA)
    ∧ get_spectrum stateA rawB = Except.ok (specA, stateA)
    ∧ compute_psd rawB = Except.ok specB
    ∧ specA ≠ specB := by
  refine ⟨rfl, rfl, rfl, ?_⟩
  norm_num [specA, specB]

/-- C2 (amended): the Derived Dataset is a deterministic function of the Raw
Dataset (`compute_psd` is a pure function), and the derived stage is cached
in a single unit-keyed slot — `get_spectrum` takes no arguments — so it is
computed at most once per session lifetime: after any successful call, every
later call returns the cached spectrum unchanged, whatever raw dataset is
current, and the computation counter never moves again. -/
theorem get_spectrum_single_slot (s : CacheState) (raw : RawDataset)
    (d : DerivedDataset) (s' : CacheState)
    (h : get_spectrum s raw = Except.ok (d, s')) :
    s'.specCache = some d
    ∧ s'.specRuns ≤ s.specRuns + 1
    ∧ ∀ raw2, get_spectrum s' raw2 = Except.ok (d, s') := by
  obtain ⟨hc, -, -⟩ := get_spectrum_ok_cache h
  refine ⟨hc, ?_, fun raw2 => get_spectrum_hit hc raw2⟩
  unfold get_spectrum at h
  cases hs : s.specCache with
  | some d0 =>
    rw [hs] at h
    simp only [Except.ok.injEq, Prod.mk.injEq] at h
    obtain ⟨rfl, rfl⟩ := h
    exact Nat.le_succ _
  | none =>
    rw [hs] at h
    cases hp : compute_psd raw with
    | error e => rw [hp] at h; cases h
    | ok d1 =>
      rw [hp] at h
      simp only [Except.ok.injEq, Prod.mk.injEq] at h
      obtain ⟨rfl, rfl⟩ := h
      exact Nat.le_refl _

/-- C2 witness: computing the spectrum of `rawA` once fills the slot, and the
next call — here with `rawB` current — is answered from the slot without
recomputation. -/
theorem get_spectrum_single_slot_witness :
    stateA.specCache = some specA
    ∧ get_spectrum stateA rawB = Except.ok (specA, stateA) :=
  ⟨(get_spectrum_single_slot initState rawA specA stateA rfl).1,
   (get_spectrum_single_slot initState rawA specA stateA rfl).2.2 rawB⟩

/-- C3: when the fit does not converge (no spectrum data in the requested
range) under otherwise valid parameters, `fit` fails with `ComputeError`, and
the cycle recovers locally: it renders the "no result" state (`noFit`, no
metrics on display) instead of crashing or propagating the error — `runCycle`
is a total function and the error never escapes the fit stage. -/
theorem nonconvergent_fit_renders_no_result (d : DerivedDataset)
    (p : ParameterSet)
    (hord1 : p.f_range.1 ≤ p.f_range.2) (hord2 : p.peak_width.1 ≤ p.peak_width.2)
    (hempty : trim d p.f_range.1 p.f_range.2 = []) :
    fit d p = Except.error PipeError.ComputeError
    ∧ ∀ fs path raw s prev, SoundCache fs s → fs path = some raw →
        s.specCache = some d →
        (runCycle fs path p s).1 = CycleResult.noFit
        ∧ updateDisplay prev (runCycle fs path p s).1 = none := by
  have hno : ¬(p.f_range.2 < p.f_range.1 ∨ p.peak_width.2 < p.peak_width.1) := by
    push_neg
    exact ⟨hord1, hord2⟩
  have hfit : fit d p = Except.error PipeError.ComputeError := by
    unfold fit
    rw [if_neg hno, if_pos hempty]
  refine ⟨hfit, ?_⟩
  intro fs path raw s prev hS hfs hsc
  obtain ⟨s1, hl, -, hspec, -⟩ := load_data_total hS hfs
  have hsc1 : s1.specCache = some d := by rw [hspec, hsc]
  have hgs : get_spectrum s1 raw = Except.ok (d, s1) := get_spectrum_hit hsc1 raw
  have hres : (runCycle fs path p s).1 = CycleResult.noFit := by
    simp [runCycle, hl, hgs, fitAndRender, hfit]
  exact ⟨hres, by rw [hres]; rfl⟩

/-- C3 witness: the demo spectrum `demoHigh` has its only point at 50 Hz, so
a fit over the script's default range `[1, 45]` has no data; the cycle shows
the "no result" state. -/
theorem nonconvergent_fit_renders_no_result_witness :
    fit demoHigh demoParamsWide = Except.error PipeError.ComputeError
    ∧ (runCycle demoFs "data" demoParamsWide demoStateHigh).1 = CycleResult.noFit
    ∧ updateDisplay (some demoPayload)
        (runCycle demoFs "data" demoParamsWide demoStateHigh).1 = none := by
  have h := nonconvergent_fit_renders_no_result demoHigh demoParamsWide
    (by decide) (by norm_num [demoParamsWide, demoParams]) (by decide)
  have h2 := h.2 demoFs "data" demoRaw demoStateHigh (some demoPayload)
    (soundCache_single demoFs "data" demoRaw ["data"] (some demoHigh) 1 rfl)
    rfl rfl
  exact ⟨h.1, h2.1, h2.2⟩

/-- C4: `load_data` is idempotent under an identical path: a second call with
the same path is a cache hit returning exactly the stored entry (the cache
state itself is unchanged, so the expensive loader body did not run again),
and the at-most-once-per-distinct-path invariant on the execution log is
preserved. -/
theorem load_data_cached_once (fs : String → Option RawDataset)
    (s : CacheState) (path : String) (r : RawDataset) (s' : CacheState)
    (h : load_data fs s path = Except.ok (r, s')) :
    load_data fs s' path = Except.ok (r, s')
    ∧ cacheLookup s'.loadCache path = some r
    ∧ (RunsOnce s → RunsOnce s') := by
  have hlook := load_data_ok_lookup h
  refine ⟨load_data_hit hlook, hlook, ?_⟩
  intro hro
  unfold load_data at h
  cases hl : cacheLookup s.loadCache path with
  | some r0 =>
    rw [hl] at h
    simp only [Except.ok.injEq, Prod.mk.injEq] at h
    obtain ⟨rfl, rfl⟩ := h
    exact hro
  | none =>
    rw [hl] at h
    cases hr : read_raw_fif fs path with
    | error e => rw [hr] at h; cases h
    | ok r1 =>
      rw [hr] at h
      simp only [Except.ok.injEq, Prod.mk.injEq] at h
      obtain ⟨rfl, rfl⟩ := h
      obtain ⟨hnd, hmem⟩ := hro
      constructor
      · refine List.nodup_cons.mpr ⟨?_, hnd⟩
        intro hmem'
        have hsome := hmem path hmem'
        rw [hl] at hsome
        simp at hsome
      · intro q hq
        rcases List.mem_cons.mp hq with rfl | hq2
        · simp [cacheLookup]
        · have hsome := hmem q hq2
          simp only [cacheLookup]
          by_cases hqp : q = path
          · rw [if_pos hqp]
            simp
          · rw [if_neg hqp]
            exact hsome

/-- C4 witness: loading `"data"` from the demo filesystem twice; the second
call returns the cache entry of the first and the state is unchanged. -/
theorem load_data_cached_once_witness :
    load_data demoFs initState "data" = Except.ok (demoRaw, demoState1)
    ∧ load_data demoFs demoState1 "data" = Except.ok (demoRaw, demoState1)
    ∧ cacheLookup demoState1.loadCache "data" = some demoRaw
    ∧ (RunsOnce initState → RunsOnce demoState1) := by
  have h := load_data_cached_once demoFs initState "data" demoRaw demoState1 rfl
  exact ⟨rfl, h.1, h.2.1, h.2.2⟩

/-- C5: for every Derived Dataset and valid Parameter Set, rendering the
result of a successful fit never fails: the payload exists and carries the
three metrics — offset (`aperiodic_params_[0]`), exponent
(`aperiodic_params_[-1]`), and a first-peak frequency that is absent, rather
than an error, exactly when the fit found zero peaks. -/
theorem render_never_fails (d : DerivedDataset) (p : ParameterSet)
    (fr : FitResult)
    (hord1 : p.f_range.1 ≤ p.f_range.2) (hord2 : p.peak_width.1 ≤ p.peak_width.2)
    (h : fit d p = Except.ok fr) :
    ∃ a rest pay, fr.aperiodic_params = a :: rest
      ∧ render fr = some pay
      ∧ pay.offset = round2 a
      ∧ pay.exponent = round2 ((a :: rest).getLast (List.cons_ne_nil a rest))
      ∧ (pay.peak_freq = none ↔ fr.peak_params = []) := by
  unfold fit at h
  rw [if_neg (by push_neg; exact ⟨hord1, hord2⟩)] at h
  by_cases hpts : trim d p.f_range.1 p.f_range.2 = []
  · rw [if_pos hpts] at h
    cases h
  · rw [if_neg hpts] at h
    simp only [Except.ok.injEq] at h
    subst h
    set pts := trim d p.f_range.1 p.f_range.2 with hpts2
    obtain ⟨a, rest, hap⟩ :
        ∃ a rest, (fitModel pts p).aperiodic_params = a :: rest := by
      cases hm : p.aperiodic_mode
      · exact ⟨(pts.map Prod.snd).sum / (pts.length : ℚ),
               [(pts.map (fun fp => fp.1 * fp.2)).sum / (pts.length : ℚ)],
               by simp [fitModel, hm]⟩
      · exact ⟨(pts.map Prod.snd).sum / (pts.length : ℚ),
               [1, (pts.map (fun fp => fp.1 * fp.2)).sum / (pts.length : ℚ)],
               by simp [fitModel, hm]⟩
    cases hpk : (fitModel pts p).peak_params with
    | nil =>
      refine ⟨a, rest,
        { offset := round2 a,
          exponent := round2 ((a :: rest).getLast (List.cons_ne_nil a rest)),
          peak_freq := none }, hap, ?_, rfl, rfl, by simp [hpk]⟩
      simp only [render, hap, hpk]
    | cons pk tl =>
      refine ⟨a, rest,
        { offset := round2 a,
          exponent := round2 ((a :: rest).getLast (List.cons_ne_nil a rest)),
          peak_freq := some (round2 pk.1) }, hap, ?_, rfl, rfl, by simp [hpk]⟩
      simp only [render, hap, hpk]

/-- C5 witness: fitting the flat demo spectrum with the default parameters
succeeds with zero peaks, and rendering yields a payload whose first-peak
metric is absent. -/
theorem render_never_fails_witness :
    ∃ a rest pay, frFlat.aperiodic_params = a :: rest
      ∧ render frFlat = some pay
      ∧ pay.offset = round2 a
      ∧ pay.exponent = round2 ((a :: rest).getLast (List.cons_ne_nil a rest))
      ∧ (pay.peak_freq = none ↔ frFlat.peak_params = []) :=
  render_never_fails demoFlat demoParams frFlat (by decide)
    (by norm_num [demoParams])
    (by norm_num [fit, fitModel, trim, demoFlat, demoParams, frFlat]
        exact fun hcontra => absurd hcontra (by simp))

/-- C6: a path the filesystem does not resolve makes the loader fail with
`NotFoundError`; the failure is fatal to the cycle — the outcome is the
user-visible warning state, no metrics are displayed — and no retry is
performed: the cycle returns with the cache state untouched. -/
theorem not_found_fatal_warning (fs : String → Option RawDataset)
    (path : String) (s : CacheState) (p : ParameterSet)
    (hfs : fs path = none) (hmiss : cacheLookup s.loadCache path = none) :
    read_raw_fif fs path = Except.error PipeError.NotFoundError
    ∧ load_data fs s path = Except.error PipeError.NotFoundError
    ∧ runCycle fs path p s = (CycleResult.fatalWarning, s)
    ∧ ∀ prev, updateDisplay prev (runCycle fs path p s).1 = none := by
  have h1 : read_raw_fif fs path = Except.error PipeError.NotFoundError := by
    unfold read_raw_fif
    rw [hfs]
  have h2 : load_data fs s path = Except.error PipeError.NotFoundError := by
    unfold load_data
    rw [hmiss, h1]
  have h3 : runCycle fs path p s = (CycleResult.fatalWarning, s) := by
    unfold runCycle
    rw [h2]
  exact ⟨h1, h2, h3, fun prev => by rw [h3]; rfl⟩

/-- C6 witness: a session over an empty filesystem fails fatally with
`NotFoundError` at path `"missing"` and displays no metrics. -/
theorem not_found_fatal_warning_witness :
    read_raw_fif emptyFs "missing" = Except.error PipeError.NotFoundError
    ∧ load_data emptyFs initState "missing" = Except.error PipeError.NotFoundError
    ∧ runCycle emptyFs "missing" demoParams initState
        = (CycleResult.fatalWarning, initState)
    ∧ updateDisplay (some demoPayload)
        (runCycle emptyFs "missing" demoParams initState).1 = none := by
  have h := not_found_fatal_warning emptyFs "missing" initState demoParams rfl rfl
  exact ⟨h.1, h.2.1, h.2.2.1, h.2.2.2 (some demoPayload)⟩

/-- C7: one full cycle is a deterministic function of its inputs: re-running
the pipeline with the identical path and Parameter Set returns the identical
outcome — hence bit-identical display metrics — and the identical cache
state. -/
theorem pipeline_rerun_identical (fs : String → Option RawDataset)
    (path : String) (p : ParameterSet) (s : CacheState) :
    runCycle fs path p (runCycle fs path p s).2 = runCycle fs path p s := by
  cases hl : load_data fs s path with
  | error e =>
    simp [runCycle, hl]
  | ok rs =>
    obtain ⟨raw, s1⟩ := rs
    cases hg : get_spectrum s1 raw with
    | error e =>
      have hl1 : load_data fs s1 path = Except.ok (raw, s1) :=
        load_data_hit (load_data_ok_lookup hl)
      simp [runCycle, hl, hg, hl1]
    | ok ds =>
      obtain ⟨spec, s2⟩ := ds
      obtain ⟨hsc, hlc, -⟩ := get_spectrum_ok_cache hg
      have hlook2 : cacheLookup s2.loadCache path = some raw := by
        rw [hlc]
        exact load_data_ok_lookup hl
      have hl2 : load_data fs s2 path = Except.ok (raw, s2) := load_data_hit hlook2
      have hg2 : get_spectrum s2 raw = Except.ok (spec, s2) := get_spectrum_hit hsc raw
      simp [runCycle, hl, hg, hl2, hg2]

/-- C8: the fit-and-render stage executes fresh on every invocation,
regardless of caching: the outcome of a cycle is exactly `fitAndRender`
applied to the cached spectrum and the Parameter Set supplied in *that*
cycle, and the fit stage touches no cache entry (the returned state is the
one left by the two cached stages — `CacheState` has no Fit Result slot at
all), so the Fit Result can never be stale relative to the current
Parameter Set. -/
theorem fit_stage_fresh (fs : String → Option RawDataset) (path : String)
    (p : ParameterSet) (s : CacheState) (raw : RawDataset) (s1 : CacheState)
    (spec : DerivedDataset) (s2 : CacheState)
    (hl : load_data fs s path = Except.ok (raw, s1))
    (hg : get_spectrum s1 raw = Except.ok (spec, s2)) :
    (runCycle fs path p s).1 = fitAndRender spec p
    ∧ (runCycle fs path p s).2 = s2 := by
  constructor <;> simp [runCycle, hl, hg]

/-- C8 witness: a cycle over the demo filesystem from the empty session state
computes its outcome as `fitAndRender` of the cached demo spectrum and the
current parameters. -/
theorem fit_stage_fresh_witness :
    (runCycle demoFs "data" demoParams initState).1
        = fitAndRender demoSpec demoParams
    ∧ (runCycle demoFs "data" demoParams initState).2 = demoState2 :=
  fit_stage_fresh demoFs "data" demoParams initState demoRaw demoState1
    demoSpec demoState2 rfl rfl

end Fooof

end BerlinBrains
